import Mathlib

/-!
Shallow embedding of the prediction-monitoring and drift-detection subsystem of
the repository: `src/api/monitoring.py` (`PredictionMonitor`) and
`src/src/monitoring.py` (`ModelMonitor`).

Modelling conventions:
* Python floats are modelled as rationals (`ℚ`).  All arithmetic the monitors
  perform is `+ - * / abs` plus `numpy` aggregates; every aggregate except
  `np.std` is rational-valued on rational inputs.
* `np.std` (population standard deviation, the square root of the variance) is
  irrational in general, so wherever the source stores or reports a standard
  deviation we store/report its *square* (the variance), recording in the field
  name / constructor that the reported value is the square root of the stored
  one.  Every comparison the source makes against a standard deviation
  (`std > 0`, `std < 0.01`, `score > threshold` with
  `score = |Δ| / std`) is translated to the equivalent comparison on squares,
  using that `x ↦ x²` is strictly monotone on nonnegatives.
* Python `deque(maxlen = c)` is modelled by `dequePush`: append then drop from
  the left down to `c` elements (for `c = 0` the deque stays empty, as in
  CPython).
* Python `dict`s (insertion-ordered) are modelled as association lists in
  insertion order.
* Wall-clock reads (`time.time()`, `datetime.now().isoformat()`) are passed in
  as explicit arguments (`now : ℚ`, `nowIso : String`).
-/

/-- `np.mean` over a rational list: sum divided by length (`0` on `[]`,
where numpy would give `nan`; no claim touches the empty case). -/
def npMean (xs : List ℚ) : ℚ := xs.sum / xs.length

/-- The square of `np.std` over a rational list, i.e. the population variance
`mean((x - mean xs)²)`.  The source's `np.std xs` is `Real.sqrt (npVar xs)`. -/
def npVar (xs : List ℚ) : ℚ := (xs.map (fun x => (x - npMean xs) ^ 2)).sum / xs.length

/-- `np.min` over a nonempty rational list (`0` on `[]`, where numpy raises;
no claim touches the empty case). -/
def npMin (xs : List ℚ) : ℚ :=
  match xs with
  | [] => 0
  | x :: rest => rest.foldl min x

/-- `np.max` over a nonempty rational list (`0` on `[]`). -/
def npMax (xs : List ℚ) : ℚ :=
  match xs with
  | [] => 0
  | x :: rest => rest.foldl max x

/-- Insert into an ascending-sorted rational list, keeping it sorted. -/
def insertSorted (v : ℚ) : List ℚ → List ℚ
  | [] => [v]
  | x :: xs => if v ≤ x then v :: x :: xs else x :: insertSorted v xs

/-- Ascending sort (insertion sort).  On a total order the ascending
rearrangement of a multiset of values is unique, so this agrees element-wise
with the sort numpy performs inside `np.percentile`. -/
def sortAsc (xs : List ℚ) : List ℚ := xs.foldr insertSorted []

/-- `np.percentile(xs, p)` with numpy's default linear interpolation:
sort ascending, take rank `(n-1)·p/100`, and linearly interpolate between the
two neighbouring order statistics.  (`0` on `[]`, where numpy raises.) -/
def npPercentile (p : ℚ) (xs : List ℚ) : ℚ :=
  let s := sortAsc xs
  if s.length = 0 then 0
  else
    let rank : ℚ := ((s.length - 1 : ℕ) : ℚ) * p / 100
    let i : ℕ := ⌊rank⌋.toNat
    let frac : ℚ := rank - (i : ℚ)
    let lo := s.getD i 0
    let hi := s.getD (i + 1) lo
    lo + frac * (hi - lo)

/-- `np.median` is the 50th percentile with linear interpolation. -/
def npMedian (xs : List ℚ) : ℚ := npPercentile 50 xs

/-- `collections.deque(maxlen = c).append v`: append `v`, then evict from the
left until at most `c` elements remain.  (Natural subtraction makes the drop
`0` while below capacity.) -/
def dequePush {α : Type} (c : ℕ) (xs : List α) (v : α) : List α :=
  (xs ++ [v]).drop (xs.length + 1 - c)

/-- The last `min c l.length` elements of `l`, in order. -/
def takeLast {α : Type} (c : ℕ) (l : List α) : List α := l.drop (l.length - c)

/-- `√sq > t`, for `sq ≥ 0`, expressed on the square: a nonnegative square
root exceeds `t` iff `t < 0` or `t² < sq`.  Used to translate the source's
`drift_score > threshold` where `drift_score = √sq`. -/
def sqrtGtQ (sq t : ℚ) : Bool := decide (t < 0) || decide (t * t < sq)

/-- A value of a metrics mapping: a number, the square root of a stored
nonnegative number (for `np.std`-valued fields), or a string. -/
inductive MVal where
  | num (q : ℚ)
  | rootOf (q : ℚ)
  | str (s : String)
deriving DecidableEq, Repr

/-- The keys of `get_metrics` fields derived from the wall clock read at call
time (`uptime = time.time() - start_time`). -/
def clockDerivedKeys : List String :=
  ["uptime_seconds", "uptime_hours", "predictions_per_hour"]

/-- Drop the clock-derived fields from a metrics mapping. -/
def dropClockFields (m : List (String × MVal)) : List (String × MVal) :=
  m.filter (fun kv => !(clockDerivedKeys.contains kv.1))

namespace Api

/-- Per-feature baseline entry stored by `set_baseline`
(`{'mean':…, 'std':…, 'min':…, 'max':…}`); `stdSq` is the square of the
stored `np.std` value. -/
structure FeatureBaseline where
  mean : ℚ
  stdSq : ℚ
  min : ℚ
  max : ℚ
deriving DecidableEq, Repr

/-- State of `api/monitoring.py`'s `PredictionMonitor`.
`baselineStdSq` is the square of the source's `baseline_std`; the deques are
lists in insertion order with capacity `maxHistory`. -/
structure PredictionMonitor where
  startTime : ℚ
  predictionCount : ℕ
  predictions : List ℚ
  inferenceTimes : List ℚ
  featuresLog : List (List (String × ℚ))
  timestamps : List String
  maxHistory : ℕ
  baselineMean : Option ℚ
  baselineStdSq : Option ℚ
  baselineFeatures : Option (List (String × FeatureBaseline))
deriving DecidableEq, Repr

/-- `PredictionMonitor.__init__(max_history)` at wall-clock time `now`. -/
def PredictionMonitor.init (maxHistory : ℕ) (now : ℚ) : PredictionMonitor :=
  { startTime := now
    predictionCount := 0
    predictions := []
    inferenceTimes := []
    featuresLog := []
    timestamps := []
    maxHistory := maxHistory
    baselineMean := none
    baselineStdSq := none
    baselineFeatures := none }

/-- `PredictionMonitor.log_prediction(features, prediction, inference_time)`;
`nowIso` is the `datetime.now().isoformat()` read. -/
def PredictionMonitor.logPrediction (s : PredictionMonitor)
    (features : List (String × ℚ)) (prediction : ℚ) (inferenceTime : ℚ)
    (nowIso : String) : PredictionMonitor :=
  { s with
    predictionCount := s.predictionCount + 1
    predictions := dequePush s.maxHistory s.predictions prediction
    inferenceTimes := dequePush s.maxHistory s.inferenceTimes inferenceTime
    featuresLog := dequePush s.maxHistory s.featuresLog features
    timestamps := dequePush s.maxHistory s.timestamps nowIso }

/-- `PredictionMonitor.set_baseline(predictions, features)`.
`if predictions:` / `if features:` are Python truthiness: an empty list (or
`None` / empty dict for `features`) leaves the corresponding baseline fields
untouched; otherwise the prediction baseline, resp. the whole feature-baseline
dict, is recomputed from this call's arguments.

Caveat: a feature entry with an *empty* value list is zero-filled here by the
total `npMean`/`npVar`/`npMin`/`npMax`, whereas the source raises `ValueError`
from `np.min([])` mid-loop (propagating after `baseline_features` was reset).
This embedding is therefore only faithful when every per-feature value
sequence is nonempty; theorems about `set_baseline`'s feature baselines carry
that as a hypothesis. -/
def PredictionMonitor.setBaseline (s : PredictionMonitor)
    (predictions : List ℚ) (features : Option (List (String × List ℚ)))
    : PredictionMonitor :=
  let s1 :=
    if predictions = [] then s
    else { s with
           baselineMean := some (npMean predictions)
           baselineStdSq := some (npVar predictions) }
  let fl := features.getD []
  if fl = [] then s1
  else { s1 with
         baselineFeatures :=
           some (fl.map (fun kv =>
             (kv.1, { mean := npMean kv.2, stdSq := npVar kv.2,
                      min := npMin kv.2, max := npMax kv.2 : FeatureBaseline }))) }

/-- `PredictionMonitor.get_metrics()` at wall-clock time `now`: the four
always-present counter fields, then the prediction statistics (present iff the
prediction window is nonempty), the inference-time statistics (present iff
that window is nonempty), and the last timestamp (present iff any). -/
def PredictionMonitor.getMetrics (s : PredictionMonitor) (now : ℚ)
    : List (String × MVal) :=
  let uptime := now - s.startTime
  [("total_predictions", MVal.num s.predictionCount),
   ("uptime_seconds", MVal.num uptime),
   ("uptime_hours", MVal.num (uptime / 3600)),
   ("predictions_per_hour",
     MVal.num (if 0 < uptime then (s.predictionCount : ℚ) / (uptime / 3600) else 0))]
  ++ (if s.predictions = [] then []
      else
        [("avg_prediction", MVal.num (npMean s.predictions)),
         ("std_prediction", MVal.rootOf (npVar s.predictions)),
         ("min_prediction", MVal.num (npMin s.predictions)),
         ("max_prediction", MVal.num (npMax s.predictions)),
         ("median_prediction", MVal.num (npMedian s.predictions))])
  ++ (if s.inferenceTimes = [] then []
      else
        [("avg_inference_time_ms", MVal.num (npMean s.inferenceTimes)),
         ("p50_inference_time_ms", MVal.num (npPercentile 50 s.inferenceTimes)),
         ("p95_inference_time_ms", MVal.num (npPercentile 95 s.inferenceTimes)),
         ("p99_inference_time_ms", MVal.num (npPercentile 99 s.inferenceTimes)),
         ("max_inference_time_ms", MVal.num (npMax s.inferenceTimes))])
  ++ (match s.timestamps.getLast? with
      | none => []
      | some t => [("last_prediction_time", MVal.str t)])

/-- Result dict of `PredictionMonitor.detect_drift`.  `driftScoreSq` and
`baselineStdSq` carry the squares of the reported `drift_score` and
`baseline_std` (the reported values are their square roots). -/
structure DriftInfo where
  driftDetected : Bool
  baselineConfigured : Bool
  driftScoreSq : Option ℚ
  currentMean : Option ℚ
  baselineMean : Option ℚ
  baselineStdSq : Option ℚ
deriving DecidableEq, Repr

/-- `PredictionMonitor.detect_drift(threshold)`.  Early return when the
prediction window is empty or no baseline mean is set; the score is computed
only under the guard `baseline_std and baseline_std > 0`, which on the stored
square is `0 < baselineStdSq` (`√v` is truthy and positive iff `0 < v`, for
the nonnegative `v` the source stores). -/
def PredictionMonitor.detectDrift (s : PredictionMonitor) (threshold : ℚ)
    : DriftInfo :=
  let info0 : DriftInfo :=
    { driftDetected := false
      baselineConfigured := s.baselineMean.isSome
      driftScoreSq := none
      currentMean := none
      baselineMean := s.baselineMean
      baselineStdSq := s.baselineStdSq }
  if s.predictions = [] ∨ s.baselineMean = none then info0
  else
    let bm := s.baselineMean.getD 0
    let cm := npMean s.predictions
    let info1 := { info0 with currentMean := some cm }
    match s.baselineStdSq with
    | none => info1
    | some v =>
      if 0 < v then
        let scoreSq := (cm - bm) ^ 2 / v
        { info1 with
          driftScoreSq := some scoreSq
          driftDetected := sqrtGtQ scoreSq threshold }
      else info1

end Api

namespace Src

/-- One record of `ModelMonitor.predictions_history`. -/
structure PredRecord where
  timestamp : String
  features : List (String × ℚ)
  prediction : ℚ
  inferenceTime : ℚ
deriving DecidableEq, Repr

/-- State of `src/monitoring.py`'s `ModelMonitor`: two capacity-bounded deques
(`predictions_history`, `inference_times`) and the *unbounded* plain-dict
`feature_stats` mapping each seen feature name to the plain Python list of all
its logged values. -/
structure ModelMonitor where
  predictionsHistory : List PredRecord
  inferenceTimes : List ℚ
  featureStats : List (String × List ℚ)
  startTime : ℚ
  maxHistory : ℕ
deriving DecidableEq, Repr

/-- `ModelMonitor.__init__(max_history)` at wall-clock time `now`. -/
def ModelMonitor.init (maxHistory : ℕ) (now : ℚ) : ModelMonitor :=
  { predictionsHistory := []
    inferenceTimes := []
    featureStats := []
    startTime := now
    maxHistory := maxHistory }

/-- `feature_stats.setdefault(key, []).append(value)` on an insertion-ordered
dict: append to the existing key's list, or add a new key at the end. -/
def appendFeature (fs : List (String × List ℚ)) (k : String) (v : ℚ)
    : List (String × List ℚ) :=
  match fs with
  | [] => [(k, [v])]
  | (k0, vs) :: rest =>
    if k0 = k then (k0, vs ++ [v]) :: rest
    else (k0, vs) :: appendFeature rest k v

/-- `ModelMonitor.log_prediction(features, prediction, inference_time)`:
append a full record and the inference time to the bounded deques, and each
feature value to the unbounded `feature_stats` list of its key. -/
def ModelMonitor.logPrediction (s : ModelMonitor)
    (features : List (String × ℚ)) (prediction : ℚ) (inferenceTime : ℚ)
    (nowIso : String) : ModelMonitor :=
  let record : PredRecord :=
    { timestamp := nowIso, features := features,
      prediction := prediction, inferenceTime := inferenceTime }
  { s with
    predictionsHistory := dequePush s.maxHistory s.predictionsHistory record
    inferenceTimes := dequePush s.maxHistory s.inferenceTimes inferenceTime
    featureStats := features.foldl (fun fs kv => appendFeature fs kv.1 kv.2)
      s.featureStats }

/-- The `p95_inference_time` expression of `ModelMonitor.get_metrics`. -/
def ModelMonitor.p95InferenceTime (s : ModelMonitor) : ℚ :=
  npPercentile 95 s.inferenceTimes

/-- The square of the `std_prediction` expression of
`ModelMonitor.get_metrics` (`np.std` over the predictions extracted from the
history records). -/
def ModelMonitor.stdSqPrediction (s : ModelMonitor) : ℚ :=
  npVar (s.predictionsHistory.map (fun r => r.prediction))

/-- `ModelMonitor.get_metrics()` at wall-clock time `now`.  On an empty
history it returns the zero-filled three-field dict of the source; otherwise
the full statistics dict (no rate field, unlike the API variant). -/
def ModelMonitor.getMetrics (s : ModelMonitor) (now : ℚ)
    : List (String × MVal) :=
  if s.predictionsHistory = [] then
    [("total_predictions", MVal.num 0),
     ("avg_inference_time", MVal.num 0),
     ("uptime_hours", MVal.num ((now - s.startTime) / 3600))]
  else
    let predictions := s.predictionsHistory.map (fun r => r.prediction)
    [("total_predictions", MVal.num s.predictionsHistory.length),
     ("avg_inference_time", MVal.num (npMean s.inferenceTimes)),
     ("p50_inference_time", MVal.num (npPercentile 50 s.inferenceTimes)),
     ("p95_inference_time", MVal.num s.p95InferenceTime),
     ("p99_inference_time", MVal.num (npPercentile 99 s.inferenceTimes)),
     ("avg_prediction", MVal.num (npMean predictions)),
     ("std_prediction", MVal.rootOf s.stdSqPrediction),
     ("min_prediction", MVal.num (npMin predictions)),
     ("max_prediction", MVal.num (npMax predictions)),
     ("uptime_hours", MVal.num ((now - s.startTime) / 3600))]

/-- A caller-supplied baseline entry of `ModelMonitor.detect_drift`'s
`baseline_stats` argument (plain floats, so `std` is the value itself here,
not a square). -/
structure BaselineEntry where
  mean : ℚ
  std : ℚ
deriving DecidableEq, Repr

/-- An entry of the `features_drifted` list. -/
structure DriftedFeature where
  feature : String
  baselineMean : ℚ
  currentMean : ℚ
  difference : ℚ
deriving DecidableEq, Repr

/-- A per-feature entry of `current_stats`; `stdSq` is the square of the
reported `std`. -/
structure FeatCurrentStats where
  mean : ℚ
  stdSq : ℚ
  min : ℚ
  max : ℚ
deriving DecidableEq, Repr

/-- Result dict of `ModelMonitor.detect_drift`. -/
structure MMDriftInfo where
  driftDetected : Bool
  message : Option String
  featuresDrifted : List DriftedFeature
  currentStats : List (String × FeatCurrentStats)
deriving DecidableEq, Repr

/-- `ModelMonitor.detect_drift(baseline_stats)`: with no feature data, the
`"No data available"` dict; otherwise, per tracked feature, current stats, and
— when a (truthy) baseline holds the feature — the threshold test
`abs(current_mean - baseline_mean) > 2 * baseline_std`, flagging drift and
recording the feature when it fires. -/
def ModelMonitor.detectDrift (s : ModelMonitor)
    (baselineStats : Option (List (String × BaselineEntry))) : MMDriftInfo :=
  if s.featureStats = [] then
    { driftDetected := false, message := some "No data available",
      featuresDrifted := [], currentStats := [] }
  else
    s.featureStats.foldl
      (fun info kv =>
        let feature := kv.1
        let values := kv.2
        let currentMean := npMean values
        let info := { info with
          currentStats := info.currentStats ++
            [(feature, { mean := currentMean, stdSq := npVar values,
                         min := npMin values, max := npMax values
                         : FeatCurrentStats })] }
        match (baselineStats.getD []).lookup feature with
        | none => info
        | some b =>
          if 2 * b.std < |currentMean - b.mean| then
            { info with
              driftDetected := true
              featuresDrifted := info.featuresDrifted ++
                [{ feature := feature, baselineMean := b.mean,
                   currentMean := currentMean,
                   difference := currentMean - b.mean }] }
          else info)
      { driftDetected := false, message := none,
        featuresDrifted := [], currentStats := [] }

/-- Result dict of `ModelMonitor.get_health_status`. -/
structure HealthStatus where
  status : String
  uptimeHours : ℚ
  totalPredictions : ℕ
  warnings : List String
  timestamp : String
deriving DecidableEq, Repr

/-- `ModelMonitor.get_health_status()`: reads `get_metrics()` and applies the
two heuristics in order — `p95_inference_time > 1.0` sets `degraded`, then
`std_prediction < 0.01` sets `warning` (overwriting), each appending its
message.  `std < 0.01` on the stored square is `stdSq < 1/10000` (both sides
nonnegative, squaring is strictly monotone). -/
def ModelMonitor.getHealthStatus (s : ModelMonitor) (now : ℚ)
    (nowIso : String) : HealthStatus :=
  let total := s.predictionsHistory.length
  let health :=
    if 0 < total ∧ s.stdSqPrediction < 1 / 10000 then "warning"
    else if 0 < total ∧ 1 < s.p95InferenceTime then "degraded"
    else "healthy"
  let warnings :=
    (if 0 < total ∧ 1 < s.p95InferenceTime then
      ["High inference latency detected"] else []) ++
    (if 0 < total ∧ s.stdSqPrediction < 1 / 10000 then
      ["Low prediction variance - model might be stuck"] else [])
  { status := health
    uptimeHours := (now - s.startTime) / 3600
    totalPredictions := total
    warnings := warnings
    timestamp := nowIso }

end Src

/-! ### Deque (bounded-window) lemmas -/

theorem takeLast_nil {α : Type} (c : ℕ) : takeLast c ([] : List α) = [] := by
  simp [takeLast]

theorem takeLast_length {α : Type} (c : ℕ) (l : List α) :
    (takeLast c l).length = min l.length c := by
  simp [takeLast]
  omega

/-- Pushing onto a window that holds the last `c` elements of a history `ws`
yields the window of the last `c` elements of `ws ++ [v]`. -/
theorem dequePush_takeLast {α : Type} (c : ℕ) (ws : List α) (v : α) :
    dequePush c (takeLast c ws) v = takeLast c (ws ++ [v]) := by
  unfold dequePush takeLast
  rw [List.drop_append_eq_append_drop, List.drop_append_eq_append_drop,
      List.drop_drop]
  simp only [List.length_drop, List.length_append, List.length_singleton]
  congr 1
  · congr 1
    omega
  · congr 1
    omega

/-- Folding pushes over a bounded window: starting from the last-`c` window of
`ws`, pushing the elements of `vs` in order ends in the last-`c` window of
`ws ++ vs`. -/
theorem foldl_dequePush_takeLast {α : Type} (c : ℕ) (vs : List α) :
    ∀ ws : List α,
      vs.foldl (dequePush c) (takeLast c ws) = takeLast c (ws ++ vs) := by
  induction vs with
  | nil => intro ws; simp
  | cons v vs ih =>
    intro ws
    rw [List.foldl_cons, dequePush_takeLast, ih (ws ++ [v])]
    simp

/-- Pushing the elements of `vs` into an initially empty window of capacity
`c` leaves exactly the last `min vs.length c` elements, in order. -/
theorem foldl_dequePush_nil {α : Type} (c : ℕ) (vs : List α) :
    vs.foldl (dequePush c) [] = takeLast c vs := by
  have h := foldl_dequePush_takeLast c vs []
  simpa [takeLast_nil] using h

/-! ### Folding `log_prediction` over a sequence of inputs -/

/-- One `log_prediction` call's arguments (the timestamp stands for the
wall-clock read inside the call). -/
structure LogInput where
  features : List (String × ℚ)
  prediction : ℚ
  inferenceTime : ℚ
  nowIso : String
deriving DecidableEq, Repr

/-- Replay a sequence of `log_prediction` calls on a `PredictionMonitor`. -/
def Api.processAll (s : Api.PredictionMonitor) (inputs : List LogInput)
    : Api.PredictionMonitor :=
  inputs.foldl
    (fun s i => s.logPrediction i.features i.prediction i.inferenceTime i.nowIso) s

/-- Replay a sequence of `log_prediction` calls on a `ModelMonitor`. -/
def Src.processAll (s : Src.ModelMonitor) (inputs : List LogInput)
    : Src.ModelMonitor :=
  inputs.foldl
    (fun s i => s.logPrediction i.features i.prediction i.inferenceTime i.nowIso) s

/-- The record a `ModelMonitor.log_prediction` call appends to the history. -/
def LogInput.record (i : LogInput) : Src.PredRecord :=
  { timestamp := i.nowIso, features := i.features,
    prediction := i.prediction, inferenceTime := i.inferenceTime }

theorem Api.processAll_predictions (s : Api.PredictionMonitor)
    (inputs : List LogInput) :
    (Api.processAll s inputs).predictions =
      (inputs.map (fun i => i.prediction)).foldl (dequePush s.maxHistory)
        s.predictions := by
  induction inputs generalizing s with
  | nil => rfl
  | cons i inputs ih =>
    simpa [Api.processAll, Api.PredictionMonitor.logPrediction, List.foldl_cons]
      using ih (s.logPrediction i.features i.prediction i.inferenceTime i.nowIso)

theorem Api.processAll_inferenceTimes (s : Api.PredictionMonitor)
    (inputs : List LogInput) :
    (Api.processAll s inputs).inferenceTimes =
      (inputs.map (fun i => i.inferenceTime)).foldl (dequePush s.maxHistory)
        s.inferenceTimes := by
  induction inputs generalizing s with
  | nil => rfl
  | cons i inputs ih =>
    simpa [Api.processAll, Api.PredictionMonitor.logPrediction, List.foldl_cons]
      using ih (s.logPrediction i.features i.prediction i.inferenceTime i.nowIso)

theorem Api.processAll_featuresLog (s : Api.PredictionMonitor)
    (inputs : List LogInput) :
    (Api.processAll s inputs).featuresLog =
      (inputs.map (fun i => i.features)).foldl (dequePush s.maxHistory)
        s.featuresLog := by
  induction inputs generalizing s with
  | nil => rfl
  | cons i inputs ih =>
    simpa [Api.processAll, Api.PredictionMonitor.logPrediction, List.foldl_cons]
      using ih (s.logPrediction i.features i.prediction i.inferenceTime i.nowIso)

theorem Api.processAll_timestamps (s : Api.PredictionMonitor)
    (inputs : List LogInput) :
    (Api.processAll s inputs).timestamps =
      (inputs.map (fun i => i.nowIso)).foldl (dequePush s.maxHistory)
        s.timestamps := by
  induction inputs generalizing s with
  | nil => rfl
  | cons i inputs ih =>
    simpa [Api.processAll, Api.PredictionMonitor.logPrediction, List.foldl_cons]
      using ih (s.logPrediction i.features i.prediction i.inferenceTime i.nowIso)

theorem Src.processAll_history (s : Src.ModelMonitor)
    (inputs : List LogInput) :
    (Src.processAll s inputs).predictionsHistory =
      (inputs.map LogInput.record).foldl (dequePush s.maxHistory)
        s.predictionsHistory := by
  induction inputs generalizing s with
  | nil => rfl
  | cons i inputs ih =>
    simpa [Src.processAll, Src.ModelMonitor.logPrediction, List.foldl_cons,
      LogInput.record]
      using ih (s.logPrediction i.features i.prediction i.inferenceTime i.nowIso)

theorem Src.processAll_latencyWindow (s : Src.ModelMonitor)
    (inputs : List LogInput) :
    (Src.processAll s inputs).inferenceTimes =
      (inputs.map (fun i => i.inferenceTime)).foldl (dequePush s.maxHistory)
        s.inferenceTimes := by
  induction inputs generalizing s with
  | nil => rfl
  | cons i inputs ih =>
    simpa [Src.processAll, Src.ModelMonitor.logPrediction, List.foldl_cons]
      using ih (s.logPrediction i.features i.prediction i.inferenceTime i.nowIso)

/-! ### Claim theorems -/

/-- C1 (amended, `PredictionMonitor` part): for every `PredictionMonitor`
state whose stored baseline standard deviation is `0` (stored square
`some 0`), `detect_drift` takes the non-raising path and returns
`drift_detected = false` with `drift_score` unavailable (`none`), regardless
of the current mean. -/
theorem C1_zero_std_guard (s : Api.PredictionMonitor) (t : ℚ)
    (h : s.baselineStdSq = some 0) :
    (s.detectDrift t).driftDetected = false ∧
    (s.detectDrift t).driftScoreSq = none := by
  unfold Api.PredictionMonitor.detectDrift
  split
  · exact ⟨rfl, rfl⟩
  · rw [h]
    simp

/-- Witness for C1: a concrete reachable state with zero baseline std
(baseline `[5, 5]`) and a far-away current mean (`100`). -/
theorem C1_zero_std_guard_witness :
    (((Api.PredictionMonitor.init 1000 0).setBaseline [5, 5]
        none).logPrediction [] 100 1 "t").baselineStdSq = some 0 ∧
    ((((Api.PredictionMonitor.init 1000 0).setBaseline [5, 5]
        none).logPrediction [] 100 1 "t").detectDrift 2).driftDetected = false ∧
    ((((Api.PredictionMonitor.init 1000 0).setBaseline [5, 5]
        none).logPrediction [] 100 1 "t").detectDrift 2).driftScoreSq = none := by
  have hb : (((Api.PredictionMonitor.init 1000 0).setBaseline [5, 5]
      none).logPrediction [] 100 1 "t").baselineStdSq = some 0 := by
    show (((Api.PredictionMonitor.init 1000 0).setBaseline [5, 5]
      none)).baselineStdSq = some 0
    simp [Api.PredictionMonitor.setBaseline, Api.PredictionMonitor.init]
    norm_num [npVar, npMean]
  exact ⟨hb, (C1_zero_std_guard _ 2 hb).1, (C1_zero_std_guard _ 2 hb).2⟩

/-- Counterexample to C1 as stated: `ModelMonitor.detect_drift` (also cited by
the claim) with a zero-std baseline entry for feature `"x"` and current mean
`1 ≠ 0` returns `drift_detected = true`, because its test
`abs(diff) > 2 * baseline_std` degenerates to `abs(diff) > 0`. -/
theorem C1_counterexample :
    (((Src.ModelMonitor.init 1000 0).logPrediction [("x", 1)] 1 1 "t").detectDrift
      (some [("x", { mean := 0, std := 0 })])).driftDetected = true := by
  simp [Src.ModelMonitor.detectDrift, Src.ModelMonitor.logPrediction,
    Src.ModelMonitor.init, Src.appendFeature, List.lookup]
  norm_num [npMean]

/-- C2 (amended): for the deque-backed series — predictions, inference times,
features log and timestamps of `PredictionMonitor`; prediction history and
inference times of `ModelMonitor` — replaying any `N` `log_prediction` calls
on a fresh monitor of capacity `c` leaves exactly the last `min N c` logged
values, in insertion order (strict FIFO eviction). -/
theorem C2_deque_capacity_fifo (c : ℕ) (t0 : ℚ) (inputs : List LogInput) :
    ((Api.processAll (Api.PredictionMonitor.init c t0) inputs).predictions =
        takeLast c (inputs.map (fun i => i.prediction)) ∧
      (Api.processAll (Api.PredictionMonitor.init c t0) inputs).predictions.length =
        min inputs.length c) ∧
    ((Api.processAll (Api.PredictionMonitor.init c t0) inputs).inferenceTimes =
        takeLast c (inputs.map (fun i => i.inferenceTime)) ∧
      (Api.processAll (Api.PredictionMonitor.init c t0) inputs).inferenceTimes.length =
        min inputs.length c) ∧
    ((Api.processAll (Api.PredictionMonitor.init c t0) inputs).featuresLog =
        takeLast c (inputs.map (fun i => i.features)) ∧
      (Api.processAll (Api.PredictionMonitor.init c t0) inputs).featuresLog.length =
        min inputs.length c) ∧
    ((Api.processAll (Api.PredictionMonitor.init c t0) inputs).timestamps =
        takeLast c (inputs.map (fun i => i.nowIso)) ∧
      (Api.processAll (Api.PredictionMonitor.init c t0) inputs).timestamps.length =
        min inputs.length c) ∧
    ((Src.processAll (Src.ModelMonitor.init c t0) inputs).predictionsHistory =
        takeLast c (inputs.map LogInput.record) ∧
      (Src.processAll (Src.ModelMonitor.init c t0) inputs).predictionsHistory.length =
        min inputs.length c) ∧
    ((Src.processAll (Src.ModelMonitor.init c t0) inputs).inferenceTimes =
        takeLast c (inputs.map (fun i => i.inferenceTime)) ∧
      (Src.processAll (Src.ModelMonitor.init c t0) inputs).inferenceTimes.length =
        min inputs.length c) := by
  have hA1 : (Api.processAll (Api.PredictionMonitor.init c t0) inputs).predictions =
      takeLast c (inputs.map (fun i => i.prediction)) := by
    rw [Api.processAll_predictions]
    exact foldl_dequePush_nil c _
  have hA2 : (Api.processAll (Api.PredictionMonitor.init c t0) inputs).inferenceTimes =
      takeLast c (inputs.map (fun i => i.inferenceTime)) := by
    rw [Api.processAll_inferenceTimes]
    exact foldl_dequePush_nil c _
  have hA3 : (Api.processAll (Api.PredictionMonitor.init c t0) inputs).featuresLog =
      takeLast c (inputs.map (fun i => i.features)) := by
    rw [Api.processAll_featuresLog]
    exact foldl_dequePush_nil c _
  have hA4 : (Api.processAll (Api.PredictionMonitor.init c t0) inputs).timestamps =
      takeLast c (inputs.map (fun i => i.nowIso)) := by
    rw [Api.processAll_timestamps]
    exact foldl_dequePush_nil c _
  have hS1 : (Src.processAll (Src.ModelMonitor.init c t0) inputs).predictionsHistory =
      takeLast c (inputs.map LogInput.record) := by
    rw [Src.processAll_history]
    exact foldl_dequePush_nil c _
  have hS2 : (Src.processAll (Src.ModelMonitor.init c t0) inputs).inferenceTimes =
      takeLast c (inputs.map (fun i => i.inferenceTime)) := by
    rw [Src.processAll_latencyWindow]
    exact foldl_dequePush_nil c _
  refine ⟨⟨hA1, ?_⟩, ⟨hA2, ?_⟩, ⟨hA3, ?_⟩, ⟨hA4, ?_⟩, ⟨hS1, ?_⟩, ⟨hS2, ?_⟩⟩ <;>
    simp [hA1, hA2, hA3, hA4, hS1, hS2, takeLast_length]

/-- Counterexample to C2 as stated: `ModelMonitor`'s per-feature series are
plain unbounded lists; with capacity `1`, after two `log_prediction` calls for
feature `"x"` the series holds both values, so its length exceeds the
capacity. -/
theorem C2_counterexample :
    ¬ (((((Src.ModelMonitor.init 1 0).logPrediction [("x", 1)] 1 1 "t").logPrediction
        [("x", 2)] 2 1 "t").featureStats.lookup "x").getD []).length ≤ 1 := by
  simp [Src.ModelMonitor.logPrediction, Src.ModelMonitor.init, Src.appendFeature,
    List.lookup]

/-- C4: whenever no baseline mean is configured or the prediction window is
empty, `detect_drift` (any threshold) returns `baseline_configured` mirroring
baseline existence, `drift_detected = false`, and `none` for both
`drift_score` and `current_mean`. -/
theorem C4_unconfigured_or_empty (s : Api.PredictionMonitor) (t : ℚ)
    (h : s.baselineMean = none ∨ s.predictions = []) :
    (s.detectDrift t).driftDetected = false ∧
    (s.detectDrift t).baselineConfigured = s.baselineMean.isSome ∧
    (s.detectDrift t).driftScoreSq = none ∧
    (s.detectDrift t).currentMean = none := by
  unfold Api.PredictionMonitor.detectDrift
  rw [if_pos (h.elim Or.inr Or.inl)]
  exact ⟨rfl, rfl, rfl, rfl⟩

/-- Witness for C4: the freshly constructed monitor (no baseline, no
predictions). -/
theorem C4_unconfigured_or_empty_witness :
    (Api.PredictionMonitor.init 1000 0).baselineMean = none ∧
    ((Api.PredictionMonitor.init 1000 0).detectDrift 2).driftDetected = false ∧
    ((Api.PredictionMonitor.init 1000 0).detectDrift 2).baselineConfigured =
      (Api.PredictionMonitor.init 1000 0).baselineMean.isSome ∧
    ((Api.PredictionMonitor.init 1000 0).detectDrift 2).driftScoreSq = none ∧
    ((Api.PredictionMonitor.init 1000 0).detectDrift 2).currentMean = none := by
  refine ⟨rfl, ?_⟩
  exact C4_unconfigured_or_empty (Api.PredictionMonitor.init 1000 0) 2 (Or.inl rfl)

/-- C7: `log_prediction` leaves all three baseline fields of
`PredictionMonitor` (prediction baseline mean and std, and the per-feature
baseline dict) unchanged, for every state and arguments. -/
theorem C7_log_preserves_baseline (s : Api.PredictionMonitor)
    (features : List (String × ℚ)) (p it : ℚ) (ts : String) :
    (s.logPrediction features p it ts).baselineMean = s.baselineMean ∧
    (s.logPrediction features p it ts).baselineStdSq = s.baselineStdSq ∧
    (s.logPrediction features p it ts).baselineFeatures = s.baselineFeatures :=
  ⟨rfl, rfl, rfl⟩

/-- C3: from a fresh monitor, `set_baseline([10,20,30,40,50])` then one
logged prediction of `100` (any features / inference time) makes
`detect_drift(threshold = 2)` report `current_mean = 100`,
`baseline_mean = 30`, `drift_score = |100 - 30| / std = 70 / √200 = √(49/2)
≈ 4.95` (strictly between `4.94` and `4.95`), and `drift_detected = true`. -/
theorem C3_drift_scenario (features : List (String × ℚ)) (it : ℚ) (ts : String) :
    ((((Api.PredictionMonitor.init 1000 0).setBaseline [10, 20, 30, 40, 50]
        none).logPrediction features 100 it ts).detectDrift 2).currentMean = some 100 ∧
    ((((Api.PredictionMonitor.init 1000 0).setBaseline [10, 20, 30, 40, 50]
        none).logPrediction features 100 it ts).detectDrift 2).baselineMean = some 30 ∧
    ((((Api.PredictionMonitor.init 1000 0).setBaseline [10, 20, 30, 40, 50]
        none).logPrediction features 100 it ts).detectDrift 2).driftScoreSq =
      some (49 / 2) ∧
    ((((Api.PredictionMonitor.init 1000 0).setBaseline [10, 20, 30, 40, 50]
        none).logPrediction features 100 it ts).detectDrift 2).driftDetected = true ∧
    Real.sqrt (49 / 2) = 70 / Real.sqrt 200 ∧
    (4.94 : ℝ) < Real.sqrt (49 / 2) ∧ Real.sqrt (49 / 2) < 4.95 := by
  have hstate : (((Api.PredictionMonitor.init 1000 0).setBaseline [10, 20, 30, 40, 50]
      none).logPrediction features 100 it ts).detectDrift 2 =
      ({ startTime := 0, predictionCount := 1, predictions := [100],
         inferenceTimes := dequePush 1000 [] it,
         featuresLog := dequePush 1000 [] features,
         timestamps := dequePush 1000 [] ts,
         maxHistory := 1000,
         baselineMean := some (npMean [10, 20, 30, 40, 50]),
         baselineStdSq := some (npVar [10, 20, 30, 40, 50]),
         baselineFeatures := none } : Api.PredictionMonitor).detectDrift 2 := by
    simp [Api.PredictionMonitor.setBaseline, Api.PredictionMonitor.init,
      Api.PredictionMonitor.logPrediction, dequePush]
  have hmean : npMean [10, 20, 30, 40, 50] = (30 : ℚ) := by norm_num [npMean]
  have hvar : npVar [10, 20, 30, 40, 50] = (200 : ℚ) := by norm_num [npVar, npMean]
  have hone : npMean [100] = (100 : ℚ) := by norm_num [npMean]
  have hfull : (((Api.PredictionMonitor.init 1000 0).setBaseline [10, 20, 30, 40, 50]
      none).logPrediction features 100 it ts).detectDrift 2 =
      { driftDetected := true, baselineConfigured := true,
        driftScoreSq := some (49 / 2), currentMean := some 100,
        baselineMean := some 30, baselineStdSq := some 200 } := by
    rw [hstate, Api.PredictionMonitor.detectDrift]
    rw [hmean, hvar, hone]
    simp [sqrtGtQ]
    norm_num
  refine ⟨?_, ?_, ?_, ?_, ?_, ?_, ?_⟩
  · rw [hfull]
  · rw [hfull]
  · rw [hfull]
  · rw [hfull]
  · rw [show (49 / 2 : ℝ) = 70 ^ 2 / 200 by norm_num,
        Real.sqrt_div (by norm_num : (0:ℝ) ≤ 70 ^ 2),
        Real.sqrt_sq (by norm_num : (0:ℝ) ≤ 70)]
  · exact (Real.lt_sqrt (by norm_num)).mpr (by norm_num)
  · exact (Real.sqrt_lt' (by norm_num)).mpr (by norm_num)

/-- C5 (amended): with no intervening mutation, two `get_metrics` reads agree
on every field except the clock-derived ones (`uptime_seconds`,
`uptime_hours`, `predictions_per_hour` in `PredictionMonitor`; `uptime_hours`
in `ModelMonitor`), whose values follow each call's wall-clock reading. -/
theorem C5_reads_agree_outside_clock_fields (t1 t2 : ℚ) :
    (∀ s : Api.PredictionMonitor,
      dropClockFields (s.getMetrics t1) = dropClockFields (s.getMetrics t2)) ∧
    (∀ s : Src.ModelMonitor,
      dropClockFields (s.getMetrics t1) = dropClockFields (s.getMetrics t2)) := by
  constructor
  · intro s
    cases hts : s.timestamps.getLast? <;>
      by_cases hp : s.predictions = [] <;>
      by_cases hi : s.inferenceTimes = [] <;>
      simp [Api.PredictionMonitor.getMetrics, dropClockFields, clockDerivedKeys,
        List.filter_append, hts, hp, hi]
  · intro s
    by_cases h : s.predictionsHistory = [] <;>
      simp [Src.ModelMonitor.getMetrics, dropClockFields, clockDerivedKeys, h]

/-- Counterexample to C5 as stated: on the very same (fresh) monitor state,
`get_metrics` at wall-clock reads `1` and `2` returns different mappings
(`uptime_seconds` is `1` vs `2`), though nothing was logged in between. -/
theorem C5_counterexample :
    (Api.PredictionMonitor.init 1000 0).getMetrics 1 ≠
      (Api.PredictionMonitor.init 1000 0).getMetrics 2 := by
  simp [Api.PredictionMonitor.getMetrics, Api.PredictionMonitor.init]

/-- C6 (amended): on a monitor with no logged data, `PredictionMonitor`'s
`get_metrics` returns exactly the four always-present counter fields, every
window statistic omitted; `ModelMonitor`'s instead returns its three-field
dict in which the inference-time statistic `avg_inference_time` is present
zero-filled. -/
theorem C6_empty_metrics (sA : Api.PredictionMonitor) (sM : Src.ModelMonitor)
    (t : ℚ) (hp : sA.predictions = []) (hi : sA.inferenceTimes = [])
    (hts : sA.timestamps = []) (hM : sM.predictionsHistory = []) :
    sA.getMetrics t =
      [("total_predictions", MVal.num sA.predictionCount),
       ("uptime_seconds", MVal.num (t - sA.startTime)),
       ("uptime_hours", MVal.num ((t - sA.startTime) / 3600)),
       ("predictions_per_hour",
         MVal.num (if 0 < t - sA.startTime then
           (sA.predictionCount : ℚ) / ((t - sA.startTime) / 3600) else 0))] ∧
    sM.getMetrics t =
      [("total_predictions", MVal.num 0),
       ("avg_inference_time", MVal.num 0),
       ("uptime_hours", MVal.num ((t - sM.startTime) / 3600))] := by
  constructor
  · simp [Api.PredictionMonitor.getMetrics, hp, hi, hts]
  · simp [Src.ModelMonitor.getMetrics, hM]

/-- Witness for C6: the two freshly constructed monitors at start time `0`,
read at wall-clock time `5`. -/
theorem C6_empty_metrics_witness :
    (Api.PredictionMonitor.init 1000 0).predictions = [] ∧
    (Api.PredictionMonitor.init 1000 0).inferenceTimes = [] ∧
    (Api.PredictionMonitor.init 1000 0).timestamps = [] ∧
    (Src.ModelMonitor.init 1000 0).predictionsHistory = [] ∧
    (Src.ModelMonitor.init 1000 0).getMetrics 5 =
      [("total_predictions", MVal.num 0),
       ("avg_inference_time", MVal.num 0),
       ("uptime_hours", MVal.num ((5 - (Src.ModelMonitor.init 1000 0).startTime) / 3600))] := by
  refine ⟨rfl, rfl, rfl, rfl, ?_⟩
  exact (C6_empty_metrics (Api.PredictionMonitor.init 1000 0)
    (Src.ModelMonitor.init 1000 0) 5 rfl rfl rfl rfl).2

/-- Counterexample to C6 as stated: the fresh `ModelMonitor` (no predictions
logged) returns a mapping in which the inference-time-window statistic
`avg_inference_time` is present with a zero value, not absent. -/
theorem C6_counterexample :
    ("avg_inference_time", MVal.num 0) ∈ (Src.ModelMonitor.init 1000 0).getMetrics 5 := by
  simp [Src.ModelMonitor.getMetrics, Src.ModelMonitor.init]

/-- C8 (amended): a `set_baseline` call whose `predictions` argument is
nonempty and whose `features` argument is truthy, with every per-feature
value sequence nonempty (on an empty sequence the source raises `ValueError`
from `np.min([])`, outside this embedding — see `setBaseline`), stores a
baseline computed from this call's arguments alone — the same values from
any prior state. -/
theorem C8_truthy_overwrite (s : Api.PredictionMonitor) (preds : List ℚ)
    (features : Option (List (String × List ℚ)))
    (hp : preds ≠ []) (hf : features.getD [] ≠ [])
    (hne : ∀ kv ∈ features.getD [], kv.2 ≠ ([] : List ℚ)) :
    (s.setBaseline preds features).baselineMean = some (npMean preds) ∧
    (s.setBaseline preds features).baselineStdSq = some (npVar preds) ∧
    (s.setBaseline preds features).baselineFeatures =
      some ((features.getD []).map (fun kv =>
        (kv.1, { mean := npMean kv.2, stdSq := npVar kv.2,
                 min := npMin kv.2, max := npMax kv.2 : Api.FeatureBaseline }))) := by
  simp [Api.PredictionMonitor.setBaseline, hp, hf]

/-- Witness for C8: baseline `[10, 20]` with one nonempty feature series
`[1, 3]`, applied to the fresh monitor; both the prediction baseline and the
feature baseline come from the call's arguments. -/
theorem C8_truthy_overwrite_witness :
    (([10, 20] : List ℚ) ≠ []) ∧
    (((some [("x", [1, 3])] : Option (List (String × List ℚ))).getD []) ≠ []) ∧
    (∀ kv ∈ ((some [("x", [1, 3])] : Option (List (String × List ℚ))).getD []),
      kv.2 ≠ ([] : List ℚ)) ∧
    ((Api.PredictionMonitor.init 1000 0).setBaseline [10, 20]
      (some [("x", [1, 3])])).baselineMean = some (npMean [10, 20]) ∧
    ((Api.PredictionMonitor.init 1000 0).setBaseline [10, 20]
      (some [("x", [1, 3])])).baselineFeatures =
      some (([("x", [1, 3])] : List (String × List ℚ)).map (fun kv =>
        (kv.1, { mean := npMean kv.2, stdSq := npVar kv.2,
                 min := npMin kv.2, max := npMax kv.2 : Api.FeatureBaseline }))) := by
  refine ⟨by simp, by simp, by simp, ?_, ?_⟩
  · exact (C8_truthy_overwrite (Api.PredictionMonitor.init 1000 0) [10, 20]
      (some [("x", [1, 3])]) (by simp) (by simp) (by simp)).1
  · exact (C8_truthy_overwrite (Api.PredictionMonitor.init 1000 0) [10, 20]
      (some [("x", [1, 3])]) (by simp) (by simp) (by simp)).2.2

/-- Counterexample to C8 as stated: calling `set_baseline([])` after
`set_baseline([10])` keeps the earlier baseline mean, while the same
`set_baseline([])` call on the fresh monitor leaves it unset — so the stored
baseline after a call is *not* determined solely by that call's arguments. -/
theorem C8_counterexample :
    (((Api.PredictionMonitor.init 1000 0).setBaseline [10] none).setBaseline
        [] none).baselineMean ≠
      ((Api.PredictionMonitor.init 1000 0).setBaseline [] none).baselineMean := by
  simp [Api.PredictionMonitor.setBaseline, Api.PredictionMonitor.init]

/-- C9: on a freshly constructed `ModelMonitor`, `get_health_status` reports
`status = "healthy"`, no warnings, and zero total predictions, for any
capacity and clock readings. -/
theorem C9_fresh_health (c : ℕ) (t0 now : ℚ) (ts : String) :
    ((Src.ModelMonitor.init c t0).getHealthStatus now ts).status = "healthy" ∧
    ((Src.ModelMonitor.init c t0).getHealthStatus now ts).warnings = [] ∧
    ((Src.ModelMonitor.init c t0).getHealthStatus now ts).totalPredictions = 0 := by
  refine ⟨?_, ?_, rfl⟩ <;>
    simp [Src.ModelMonitor.getHealthStatus, Src.ModelMonitor.init]

/-- C10: when both health heuristics fire (`p95 > 1` and prediction std
`< 0.01`, i.e. variance `< 1/10000`), the status is `"warning"` — the
low-variance check overwrites the latency verdict — while both warning
messages are reported; `"degraded"` is returned exactly when data exists,
latency is high, and the prediction variance is not below the threshold. -/
theorem C10_health_priority (s : Src.ModelMonitor) (now : ℚ) (ts : String) :
    (s.predictionsHistory ≠ [] → 1 < s.p95InferenceTime →
      s.stdSqPrediction < 1 / 10000 →
      (s.getHealthStatus now ts).status = "warning" ∧
      (s.getHealthStatus now ts).warnings =
        ["High inference latency detected",
         "Low prediction variance - model might be stuck"]) ∧
    ((s.getHealthStatus now ts).status = "degraded" ↔
      (s.predictionsHistory ≠ [] ∧ 1 < s.p95InferenceTime ∧
        ¬ s.stdSqPrediction < 1 / 10000)) := by
  constructor
  · intro h1 h2 h3
    have htot : 0 < s.predictionsHistory.length := List.length_pos.mpr h1
    have h3' : s.stdSqPrediction < (10000 : ℚ)⁻¹ := by rwa [one_div] at h3
    constructor <;> simp [Src.ModelMonitor.getHealthStatus, htot, h2, h3']
  · by_cases h1 : s.predictionsHistory = []
    · simp [Src.ModelMonitor.getHealthStatus, h1]
    · have htot : 0 < s.predictionsHistory.length := List.length_pos.mpr h1
      by_cases h3 : s.stdSqPrediction < 1 / 10000
      · have h3' : s.stdSqPrediction < (10000 : ℚ)⁻¹ := by rwa [one_div] at h3
        by_cases h2 : 1 < s.p95InferenceTime <;>
          simp [Src.ModelMonitor.getHealthStatus, htot, h1, h2, h3, h3']
      · have h3' : ¬ s.stdSqPrediction < (10000 : ℚ)⁻¹ := by rwa [one_div] at h3
        by_cases h2 : 1 < s.p95InferenceTime <;>
          simp [Src.ModelMonitor.getHealthStatus, htot, h1, h2, h3, h3']


/-- The state used to witness C10: one record with prediction `5` and
inference time `2`, so the prediction variance is `0 < 1/10000` and the p95
inference time is `2 > 1` — both heuristics fire. -/
def bothHeuristicsState : Src.ModelMonitor :=
  { predictionsHistory :=
      [{ timestamp := "t", features := [], prediction := 5, inferenceTime := 2 }],
    inferenceTimes := [2], featureStats := [("x", [1])],
    startTime := 0, maxHistory := 1000 }

/-- Witness for C10: on `bothHeuristicsState` both heuristics fire and the
status is `"warning"` with both messages, in order. -/
theorem C10_health_priority_witness :
    bothHeuristicsState.predictionsHistory ≠ [] ∧
    1 < bothHeuristicsState.p95InferenceTime ∧
    bothHeuristicsState.stdSqPrediction < 1 / 10000 ∧
    (bothHeuristicsState.getHealthStatus 7 "now").status = "warning" ∧
    (bothHeuristicsState.getHealthStatus 7 "now").warnings =
      ["High inference latency detected",
       "Low prediction variance - model might be stuck"] := by
  have hne : bothHeuristicsState.predictionsHistory ≠ [] := by
    simp [bothHeuristicsState]
  have hp95 : 1 < bothHeuristicsState.p95InferenceTime := by
    norm_num [bothHeuristicsState, Src.ModelMonitor.p95InferenceTime,
      npPercentile, sortAsc, insertSorted]
  have hvar : bothHeuristicsState.stdSqPrediction < 1 / 10000 := by
    norm_num [bothHeuristicsState, Src.ModelMonitor.stdSqPrediction, npVar, npMean]
  have h := (C10_health_priority bothHeuristicsState 7 "now").1 hne hp95 hvar
  exact ⟨hne, hp95, hvar, h.1, h.2⟩
